import Mathlib

/-!
Shallow embedding of `src/package_updater.py` (class `PackageUpdater` and its
`main` entry point), together with proofs about its parsing and orchestration
logic.

Conventions of the embedding:
* External subprocess invocation is modelled by an environment
  `Env : List String → CmdOutcome`: for each argument vector the environment
  says either that the child ran (with a return code, stdout and stderr) or
  that launching it raised an exception with a message.  The program under
  verification is deterministic given such an environment.
* Every phase returns, besides its boolean result and the updated object
  state, the list of argument vectors it passed to the executor, in order.
  This trace lets theorems speak about which commands were or were not
  invoked.
* Python strings are Lean `String`s; Python `\s` / `str.strip()` / `str.split()`
  whitespace is modelled by the six ASCII whitespace characters (the inputs
  relevant to the program are ASCII).
* Printing (`print(...)`) has no effect on results or state and is not
  modelled.
-/

/-- The six ASCII whitespace characters, as recognised by Python's `str.strip`,
`str.split()` and the regex class `\s` on ASCII text. -/
def isWs (c : Char) : Bool :=
  c = ' ' || c = '\t' || c = '\n' || c = '\r' || c = '\x0b' || c = '\x0c'

/-- Python truthiness of a string: non-empty. -/
def pyTruthy (s : String) : Bool :=
  !s.toList.isEmpty

/-- Python `s.startswith(pre)`. -/
def pyStartsWith (s pre : String) : Bool :=
  pre.toList.isPrefixOf s.toList

/-- Helper of `pySplitNl`: accumulate the current (reversed) chunk. -/
def pySplitNlAux : List Char → List Char → List String
  | [], acc => [acc.reverse.asString]
  | c :: t, acc =>
    if c = '\n' then acc.reverse.asString :: pySplitNlAux t []
    else pySplitNlAux t (c :: acc)

/-- Python `s.split('\n')`: split at each newline; `''` gives `['']` and
adjacent newlines give empty chunks. -/
def pySplitNl (s : String) : List String :=
  pySplitNlAux s.toList []

/-- Python `str.strip()`: remove whitespace from both ends. -/
def pythonStrip (s : String) : String :=
  (((s.toList.dropWhile isWs).reverse.dropWhile isWs).reverse).asString

/-- Python `s.split()[0]` for a string whose `split()` is nonempty: skip
leading whitespace, then take the maximal run of non-whitespace characters. -/
def firstTok (s : String) : String :=
  ((s.toList.dropWhile isWs).takeWhile (fun c => !isWs c)).asString

/-- Substring test on lists of characters (Python's `sub in s`). -/
def listHasSub (sub : List Char) : List Char → Bool
  | [] => sub.isPrefixOf []
  | c :: t => sub.isPrefixOf (c :: t) || listHasSub sub t

/-- Python `sub in s`: substring containment. -/
def strContains (s sub : String) : Bool :=
  listHasSub sub.toList s.toList

/-- Remove a single trailing newline character, if present (used to model the
regex anchor `$`, which matches at the end of the string or just before a
newline that ends the string). -/
def dropTrailingNewline (cs : List Char) : List Char :=
  match cs.reverse with
  | '\n' :: t => t.reverse
  | _ => cs

/-- One record of the upgrade listing:
`{'name': ..., 'current': ..., 'available': ...}` in the Python source. -/
structure UpgradeCandidate where
  name : String
  current : String
  available : String
deriving Repr, DecidableEq

/-- Result of attempting to run one child process. -/
inductive CmdOutcome where
  | ran (returncode : Int) (stdout : String) (stderr : String)
  | raised (msg : String)
deriving Repr, DecidableEq

/-- The external world: what happens for each argument vector. -/
def Env : Type := List String → CmdOutcome

/-- The mutable fields of the `PackageUpdater` object. -/
structure Updater where
  dry_run : Bool
  verbose : Bool
  updatable_packages : List UpgradeCandidate
  removable_packages : List String
deriving Repr, DecidableEq

/-- `PackageUpdater.__init__`. -/
def initUpdater (dry_run verbose : Bool) : Updater :=
  { dry_run := dry_run, verbose := verbose
    updatable_packages := [], removable_packages := [] }

/-- `PackageUpdater.run_command`: returns `(success, stdout)`; a non-zero
return code gives `success = false` with the captured stdout, and an exception
while launching gives `success = false` with the exception's message in place
of stdout. -/
def run_command (env : Env) (command : List String) : Bool × String :=
  match env command with
  | .ran returncode stdout _stderr => (returncode == 0, stdout)
  | .raised msg => (false, msg)

/-- The regex `^([^/]+)/(?:\S+)\s+(\S+)\s+(\S+).*$` applied with `re.match`.
`[^/]+` is forced to stop at the first `/`; each `\S+`/`\s+` boundary is
forced because a character is either whitespace or not, so greedy matching is
maximal-munch here.  `.*$` succeeds exactly when what remains contains no
newline other than possibly one at the very end (`.` does not match a newline
and `$` also matches just before a final newline); lines produced by splitting
on newlines never contain one. -/
def matchUpgradeLine (line : String) : Option UpgradeCandidate :=
  let cs := line.toList
  let name := cs.takeWhile (fun c => c ≠ '/')
  let afterName := cs.dropWhile (fun c => c ≠ '/')
  if afterName.isEmpty then none else   -- no `/` in the line
  let rest1 := afterName.tail           -- the text after the first `/`
  if name.isEmpty then none else
    let tok1 := rest1.takeWhile (fun c => !isWs c)
    let r2 := rest1.dropWhile (fun c => !isWs c)
    if tok1.isEmpty then none else
    let ws1 := r2.takeWhile isWs
    let r3 := r2.dropWhile isWs
    if ws1.isEmpty then none else
    let cur := r3.takeWhile (fun c => !isWs c)
    let r4 := r3.dropWhile (fun c => !isWs c)
    if cur.isEmpty then none else
    let ws2 := r4.takeWhile isWs
    let r5 := r4.dropWhile isWs
    if ws2.isEmpty then none else
    let avail := r5.takeWhile (fun c => !isWs c)
    let rem := r5.dropWhile (fun c => !isWs c)
    if avail.isEmpty then none else
    if (dropTrailingNewline rem).contains '\n' then none else
    some { name := name.asString, current := cur.asString
           available := avail.asString }

/-- The body of the parsing loop of `check_apt_updates` for one line:
`if line and '/' in line and not line.startswith('Listing...')`, then the
regex match. -/
def parseUpgradableLine (line : String) : Option UpgradeCandidate :=
  if pyTruthy line && strContains line "/" &&
      !(pyStartsWith line "Listing...") then
    matchUpgradeLine line
  else none

/-- The parsing loop of `check_apt_updates` over the list of lines; matched
candidates are appended in line order. -/
def parseLines (lines : List String) : List UpgradeCandidate :=
  lines.filterMap parseUpgradableLine

/-- Parsing of `check_apt_updates` on the raw stdout:
`for line in output.strip().split('\n')`. -/
def parseUpgradable (output : String) : List UpgradeCandidate :=
  parseLines (pySplitNl (pythonStrip output))

/-- The header line text looked for by `check_autoremove`. -/
def removalHeader : String := "The following packages will be REMOVED:"

/-- The scanning loop of `check_autoremove`: before the header, ignore lines;
once a line containing the header is seen, a non-empty line not indented by at
least three spaces stops the scan, and every other non-empty line contributes
the first whitespace-delimited token of its stripped text, deduplicated. -/
def autoremoveLines : List String → Bool → List String → List String
  | [], _, packages => packages
  | line :: rest, in_package_list, packages =>
    if strContains line removalHeader then
      autoremoveLines rest true packages
    else if in_package_list && pyTruthy (pythonStrip line) &&
        !(pyStartsWith line "   ") then
      packages
    else if in_package_list && pyTruthy (pythonStrip line) then
      let package_name := firstTok (pythonStrip line)
      if pyTruthy package_name && !(packages.contains package_name) then
        autoremoveLines rest in_package_list (packages ++ [package_name])
      else
        autoremoveLines rest in_package_list packages
    else
      autoremoveLines rest in_package_list packages

/-- Parsing of `check_autoremove` on the raw stdout of
`apt autoremove --dry-run`. -/
def parseAutoremove (output : String) : List String :=
  autoremoveLines (pySplitNl (pythonStrip output)) false []

/-- `PackageUpdater.check_apt_updates`: refresh the package lists, list
upgradable packages, parse them into `updatable_packages`. -/
def check_apt_updates (env : Env) (u : Updater) :
    Bool × Updater × List (List String) :=
  let c1 := ["sudo", "apt", "update"]
  let ok1 := (run_command env c1).1
  if !ok1 then (false, u, [c1])
  else
    let c2 := ["apt", "list", "--upgradable"]
    let ok2 := (run_command env c2).1
    let output := (run_command env c2).2
    if !ok2 then (false, u, [c1, c2])
    else (true, { u with updatable_packages := parseUpgradable output },
          [c1, c2])

/-- `PackageUpdater.check_flatpak_updates`: if the `which flatpak` probe
fails the phase reports success and runs nothing else; otherwise it lists
remote updates (the listing is only printed, not stored). -/
def check_flatpak_updates (env : Env) (u : Updater) :
    Bool × Updater × List (List String) :=
  let probe := ["which", "flatpak"]
  let okProbe := (run_command env probe).1
  if !okProbe then (true, u, [probe])
  else
    let c := ["flatpak", "remote-ls", "--updates"]
    let ok := (run_command env c).1
    if !ok then (false, u, [probe, c])
    else (true, u, [probe, c])

/-- `PackageUpdater.check_autoremove`: simulate removal and parse the report
into `removable_packages`. -/
def check_autoremove (env : Env) (u : Updater) :
    Bool × Updater × List (List String) :=
  let c := ["apt", "autoremove", "--dry-run"]
  let ok := (run_command env c).1
  let output := (run_command env c).2
  if !ok then (false, u, [c])
  else (true, { u with removable_packages := parseAutoremove output }, [c])

/-- `PackageUpdater.update_apt_packages`: nothing to do when no candidates;
in dry-run mode only log; otherwise run the upgrade command and report its
success. -/
def update_apt_packages (env : Env) (u : Updater) :
    Bool × Updater × List (List String) :=
  if u.updatable_packages.isEmpty then (true, u, [])
  else if u.dry_run then (true, u, [])
  else
    let c := ["sudo", "apt", "upgrade", "-y"]
    ((run_command env c).1, u, [c])

/-- `PackageUpdater.update_flatpak_packages`: in dry-run mode only log;
otherwise run `flatpak update -y` unconditionally (no availability probe) and
report its success. -/
def update_flatpak_packages (env : Env) (u : Updater) :
    Bool × Updater × List (List String) :=
  if u.dry_run then (true, u, [])
  else
    let c := ["flatpak", "update", "-y"]
    ((run_command env c).1, u, [c])

/-- `PackageUpdater.clean_orphaned_packages`: nothing to do when no removal
candidates; in dry-run mode only log; otherwise run the removal command. -/
def clean_orphaned_packages (env : Env) (u : Updater) :
    Bool × Updater × List (List String) :=
  if u.removable_packages.isEmpty then (true, u, [])
  else if u.dry_run then (true, u, [])
  else
    let c := ["sudo", "apt", "autoremove", "-y"]
    ((run_command env c).1, u, [c])

/-- `PackageUpdater.clean_cache`: in dry-run mode only log; otherwise run
`sudo apt autoclean`. -/
def clean_cache (env : Env) (u : Updater) :
    Bool × Updater × List (List String) :=
  if u.dry_run then (true, u, [])
  else
    let c := ["sudo", "apt", "autoclean"]
    ((run_command env c).1, u, [c])

/-- `PackageUpdater.full_update_and_clean`: the three check phases, each
aborting the run on failure, then the apply phases.  `update_apt_packages` is
only called when there are upgrade candidates; the result of
`update_flatpak_packages` is ignored (`if not ...: pass` in the source); the
results of `update_apt_packages`, `clean_orphaned_packages` and `clean_cache`
determine the final boolean. -/
def full_update_and_clean (env : Env) (u : Updater) :
    Bool × Updater × List (List String) :=
  let r1 := check_apt_updates env u
  if !r1.1 then (false, r1.2.1, r1.2.2)
  else
    let r2 := check_flatpak_updates env r1.2.1
    if !r2.1 then (false, r2.2.1, r1.2.2 ++ r2.2.2)
    else
      let r3 := check_autoremove env r2.2.1
      if !r3.1 then (false, r3.2.1, r1.2.2 ++ r2.2.2 ++ r3.2.2)
      else
        let rApt :=
          if !r3.2.1.updatable_packages.isEmpty then
            update_apt_packages env r3.2.1
          else (true, r3.2.1, [])
        let rFlat := update_flatpak_packages env rApt.2.1
        let rOrph := clean_orphaned_packages env rFlat.2.1
        let rCache := clean_cache env rOrph.2.1
        (rApt.1 && rOrph.1 && rCache.1, rCache.2.1,
         r1.2.2 ++ r2.2.2 ++ r3.2.2 ++ rApt.2.2 ++ rFlat.2.2 ++ rOrph.2.2 ++
           rCache.2.2)

/-- Command-line arguments of `main`. -/
structure Args where
  dry_run : Bool
  verbose : Bool
  check_only : Bool
deriving Repr, DecidableEq

/-- `main`: in check-only mode the three check phases run (results ignored)
and the process exits 0; otherwise the exit status is 0 when
`full_update_and_clean` reports success and 1 otherwise.  The returned trace
is the list of all argument vectors passed to the executor. -/
def mainRun (a : Args) (env : Env) : Nat × List (List String) :=
  let u := initUpdater a.dry_run a.verbose
  if a.check_only then
    let r1 := check_apt_updates env u
    let r2 := check_flatpak_updates env r1.2.1
    let r3 := check_autoremove env r2.2.1
    (0, r1.2.2 ++ r2.2.2 ++ r3.2.2)
  else
    let r := full_update_and_clean env u
    (if r.1 then 0 else 1, r.2.2)

/-! ## Helper lemmas about the list-level string operations -/

theorem takeWhile_append_all {α : Type} {p : α → Bool} (l1 l2 : List α)
    (h : ∀ a ∈ l1, p a = true) :
    (l1 ++ l2).takeWhile p = l1 ++ l2.takeWhile p := by
  induction l1 with
  | nil => simp
  | cons a t ih =>
    have ha := h a (by simp)
    simp only [List.cons_append, List.takeWhile_cons, ha, ite_true]
    rw [ih (fun x hx => h x (by simp [hx]))]

theorem dropWhile_append_all {α : Type} {p : α → Bool} (l1 l2 : List α)
    (h : ∀ a ∈ l1, p a = true) :
    (l1 ++ l2).dropWhile p = l2.dropWhile p := by
  induction l1 with
  | nil => simp
  | cons a t ih =>
    have ha := h a (by simp)
    simp only [List.cons_append, List.dropWhile_cons, ha, ite_true]
    exact ih (fun x hx => h x (by simp [hx]))

theorem takeWhile_all {α : Type} {p : α → Bool} (l : List α)
    (h : ∀ a ∈ l, p a = true) : l.takeWhile p = l := by
  have := takeWhile_append_all (p := p) l [] h
  simpa using this

theorem dropWhile_cons_neg {α : Type} {p : α → Bool} (a : α) (l : List α)
    (h : p a = false) : (a :: l).dropWhile p = a :: l := by
  simp [List.dropWhile_cons, h]

theorem takeWhile_cons_neg {α : Type} {p : α → Bool} (a : α) (l : List α)
    (h : p a = false) : (a :: l).takeWhile p = [] := by
  simp [List.takeWhile_cons, h]

theorem isPrefixOf_append_self (l1 l2 : List Char) :
    l1.isPrefixOf (l1 ++ l2) = true := by
  induction l1 with
  | nil => simp [List.isPrefixOf]
  | cons c t ih => simp [List.isPrefixOf, ih]

theorem listHasSub_cons_of_sub (sub : List Char) (c : Char) (l : List Char)
    (h : listHasSub sub l = true) : listHasSub sub (c :: l) = true := by
  simp [listHasSub, h]

theorem listHasSub_of_isPrefixOf (sub l : List Char)
    (h : sub.isPrefixOf l = true) : listHasSub sub l = true := by
  cases l with
  | nil => simpa [listHasSub] using h
  | cons c t => simp [listHasSub, h]

theorem listHasSub_append_self (sub l1 l2 : List Char) :
    listHasSub sub (l1 ++ (sub ++ l2)) = true := by
  induction l1 with
  | nil =>
    exact listHasSub_of_isPrefixOf _ _
      (by simp [isPrefixOf_append_self sub l2])
  | cons c t ih => exact listHasSub_cons_of_sub _ _ _ ih

theorem toList_append (a b : String) : (a ++ b).toList = a.toList ++ b.toList := by
  simp [String.toList]

theorem asString_toList (s : String) : s.toList.asString = s := rfl

/-! ## Theorems about the claims -/

/-- **C9**: `run_command` always returns a `(success, text)` pair (it is a
total function of the outcome reported by the environment): when the child
runs, the pair is `(returncode == 0, stdout)` — in particular a non-zero exit
yields `success = false` with the captured stdout — and when launching the
child raises, the pair is `(false, message)`, so callers see a single failure
shape. -/
theorem run_command_failure_shape (env : Env) (command : List String) :
    (∀ rc out err, env command = CmdOutcome.ran rc out err →
      run_command env command = (rc == 0, out)) ∧
    (∀ rc out err, env command = CmdOutcome.ran rc out err → rc ≠ 0 →
      run_command env command = (false, out)) ∧
    (∀ msg, env command = CmdOutcome.raised msg →
      run_command env command = (false, msg)) := by
  refine ⟨?_, ?_, ?_⟩
  · intro rc out err h
    simp [run_command, h]
  · intro rc out err h hrc
    simp [run_command, h, hrc]
  · intro msg h
    simp [run_command, h]

/-- Witness for C9: a child exiting 1 and a child that fails to launch both
produce `success = false` with the corresponding text. -/
theorem run_command_failure_shape_witness :
    run_command (fun _ => CmdOutcome.ran 1 "partial output" "diag") ["apt"] =
      (false, "partial output") ∧
    run_command (fun _ => CmdOutcome.raised "No such file or directory")
      ["apt"] = (false, "No such file or directory") :=
  ⟨(run_command_failure_shape (fun _ => CmdOutcome.ran 1 "partial output" "diag")
      ["apt"]).2.1 1 "partial output" "diag" rfl (by decide),
   (run_command_failure_shape (fun _ => CmdOutcome.raised "No such file or directory")
      ["apt"]).2.2 "No such file or directory" rfl⟩

/-- **C10**: with an empty candidate list the corresponding apply phase
returns success and invokes no command, whatever the dry-run flag; and each
apply command can only have been invoked when the corresponding candidate list
(filled in by the check phase of the same run) is non-empty. -/
theorem apply_skipped_when_no_candidates (env : Env) (u : Updater) :
    (u.updatable_packages = [] →
      update_apt_packages env u = (true, u, [])) ∧
    (u.removable_packages = [] →
      clean_orphaned_packages env u = (true, u, [])) ∧
    ((update_apt_packages env u).2.2 ≠ [] → u.updatable_packages ≠ []) ∧
    ((clean_orphaned_packages env u).2.2 ≠ [] → u.removable_packages ≠ []) := by
  refine ⟨?_, ?_, ?_, ?_⟩
  · intro h
    simp [update_apt_packages, h]
  · intro h
    simp [clean_orphaned_packages, h]
  · intro htr h
    exact htr (by simp [update_apt_packages, h])
  · intro htr h
    exact htr (by simp [clean_orphaned_packages, h])

/-- Witness for C10: the freshly initialised state has empty candidate lists
and both apply phases return success with an empty command trace. -/
theorem apply_skipped_when_no_candidates_witness :
    update_apt_packages (fun _ => CmdOutcome.ran 0 "" "")
      (initUpdater false false) = (true, initUpdater false false, []) ∧
    clean_orphaned_packages (fun _ => CmdOutcome.ran 0 "" "")
      (initUpdater false false) = (true, initUpdater false false, []) :=
  ⟨(apply_skipped_when_no_candidates (fun _ => CmdOutcome.ran 0 "" "")
      (initUpdater false false)).1 rfl,
   (apply_skipped_when_no_candidates (fun _ => CmdOutcome.ran 0 "" "")
      (initUpdater false false)).2.1 rfl⟩

/-- **C7**: when the package-list refresh command fails, the full run aborts
immediately: the refresh command is the only command ever invoked (so the
upgrade-listing command and every later phase never run), the run reports
failure, and in non-check-only mode the process exits 1. -/
theorem refresh_failure_aborts (env : Env) (u : Updater) (dr vb : Bool)
    (hfail : (run_command env ["sudo", "apt", "update"]).1 = false) :
    full_update_and_clean env u = (false, u, [["sudo", "apt", "update"]]) ∧
    mainRun ⟨dr, vb, false⟩ env = (1, [["sudo", "apt", "update"]]) := by
  have hfull : ∀ v : Updater, full_update_and_clean env v =
      (false, v, [["sudo", "apt", "update"]]) := by
    intro v
    simp [full_update_and_clean, check_apt_updates, hfail]
  refine ⟨hfull u, ?_⟩
  simp [mainRun, hfull (initUpdater dr vb)]

/-- Witness for C7: with an environment whose refresh command exits 12, the
run aborts after that single command and the process exits 1. -/
theorem refresh_failure_aborts_witness :
    full_update_and_clean
      (fun cmd => if cmd = ["sudo", "apt", "update"] then
        CmdOutcome.ran 12 "" "E: Could not get lock" else CmdOutcome.ran 0 "" "")
      (initUpdater false false) =
      (false, initUpdater false false, [["sudo", "apt", "update"]]) ∧
    mainRun ⟨false, false, false⟩
      (fun cmd => if cmd = ["sudo", "apt", "update"] then
        CmdOutcome.ran 12 "" "E: Could not get lock" else CmdOutcome.ran 0 "" "") =
      (1, [["sudo", "apt", "update"]]) :=
  refresh_failure_aborts
    (fun cmd => if cmd = ["sudo", "apt", "update"] then
      CmdOutcome.ran 12 "" "E: Could not get lock" else CmdOutcome.ran 0 "" "")
    (initUpdater false false) false false (by decide)

/-! ## State-threading helper lemmas for the orchestrator -/

theorem check_apt_updates_dry_run (env : Env) (u : Updater) :
    (check_apt_updates env u).2.1.dry_run = u.dry_run := by
  simp only [check_apt_updates]
  split
  · rfl
  · split <;> rfl

theorem check_flatpak_updates_state (env : Env) (u : Updater) :
    (check_flatpak_updates env u).2.1 = u := by
  simp only [check_flatpak_updates]
  split
  · rfl
  · split <;> rfl

theorem check_autoremove_dry_run (env : Env) (u : Updater) :
    (check_autoremove env u).2.1.dry_run = u.dry_run := by
  simp only [check_autoremove]
  split <;> rfl

theorem update_apt_packages_state (env : Env) (u : Updater) :
    (update_apt_packages env u).2.1 = u := by
  unfold update_apt_packages
  split
  · rfl
  · split <;> rfl

theorem update_flatpak_packages_state (env : Env) (u : Updater) :
    (update_flatpak_packages env u).2.1 = u := by
  unfold update_flatpak_packages
  split <;> rfl

theorem clean_orphaned_packages_state (env : Env) (u : Updater) :
    (clean_orphaned_packages env u).2.1 = u := by
  unfold clean_orphaned_packages
  split
  · rfl
  · split <;> rfl

theorem clean_cache_state (env : Env) (u : Updater) :
    (clean_cache env u).2.1 = u := by
  unfold clean_cache
  split <;> rfl

theorem update_apt_packages_dry (env : Env) (u : Updater)
    (hd : u.dry_run = true) : update_apt_packages env u = (true, u, []) := by
  unfold update_apt_packages
  split
  · rfl
  · simp [hd]

theorem update_flatpak_packages_dry (env : Env) (u : Updater)
    (hd : u.dry_run = true) : update_flatpak_packages env u = (true, u, []) := by
  simp [update_flatpak_packages, hd]

theorem clean_orphaned_packages_dry (env : Env) (u : Updater)
    (hd : u.dry_run = true) : clean_orphaned_packages env u = (true, u, []) := by
  unfold clean_orphaned_packages
  split
  · rfl
  · simp [hd]

theorem clean_cache_dry (env : Env) (u : Updater) (hd : u.dry_run = true) :
    clean_cache env u = (true, u, []) := by
  simp [clean_cache, hd]

/-- The guard `if self.updatable_packages:` around the call to
`update_apt_packages` is redundant: with no candidates the method itself
returns success without running anything. -/
theorem guarded_update_apt (env : Env) (u : Updater) :
    (if !u.updatable_packages.isEmpty then update_apt_packages env u
     else (true, u, [])) = update_apt_packages env u := by
  by_cases h : u.updatable_packages.isEmpty
  · simp [h, update_apt_packages]
  · simp [h]

/-- The object state after the three check phases of a run starting at `u`. -/
def afterChecks (env : Env) (u : Updater) : Updater :=
  (check_autoremove env
    (check_flatpak_updates env (check_apt_updates env u).2.1).2.1).2.1

/-- Complete description of `full_update_and_clean` when all three check
phases succeed: the final boolean conjoins the upgrade-apply, removal-apply
and cache-clean results (the Flatpak apply result is ignored), every apply
phase acts on the state produced by the checks of the same run, and the trace
is the concatenation of all phase traces. -/
theorem full_run_characterization (env : Env) (u : Updater)
    (h1 : (check_apt_updates env u).1 = true)
    (h2 : (check_flatpak_updates env (check_apt_updates env u).2.1).1 = true)
    (h3 : (check_autoremove env
      (check_flatpak_updates env (check_apt_updates env u).2.1).2.1).1 = true) :
    full_update_and_clean env u =
      ((update_apt_packages env (afterChecks env u)).1 &&
         (clean_orphaned_packages env (afterChecks env u)).1 &&
         (clean_cache env (afterChecks env u)).1,
       afterChecks env u,
       (check_apt_updates env u).2.2 ++
         (check_flatpak_updates env (check_apt_updates env u).2.1).2.2 ++
         (check_autoremove env
           (check_flatpak_updates env (check_apt_updates env u).2.1).2.1).2.2 ++
         (update_apt_packages env (afterChecks env u)).2.2 ++
         (update_flatpak_packages env (afterChecks env u)).2.2 ++
         (clean_orphaned_packages env (afterChecks env u)).2.2 ++
         (clean_cache env (afterChecks env u)).2.2) := by
  simp only [full_update_and_clean]
  rw [h1, h2, h3]
  simp only [Bool.not_true, Bool.false_eq_true, if_false, guarded_update_apt,
    update_apt_packages_state, update_flatpak_packages_state,
    clean_orphaned_packages_state, clean_cache_state]
  rfl

/-- **C8**: in dry-run mode every apply phase (upgrade apply, Flatpak apply,
removal apply, cache clean) reports success without invoking any command, and
a dry run whose three check phases succeed reports overall success with a
trace containing only the check-phase commands — whatever candidates the
checks found. -/
theorem dry_run_no_apply_commands (env : Env) (u : Updater)
    (hd : u.dry_run = true) :
    update_apt_packages env u = (true, u, []) ∧
    update_flatpak_packages env u = (true, u, []) ∧
    clean_orphaned_packages env u = (true, u, []) ∧
    clean_cache env u = (true, u, []) ∧
    ((check_apt_updates env u).1 = true →
     (check_flatpak_updates env (check_apt_updates env u).2.1).1 = true →
     (check_autoremove env
       (check_flatpak_updates env (check_apt_updates env u).2.1).2.1).1 = true →
     full_update_and_clean env u =
       (true, afterChecks env u,
        (check_apt_updates env u).2.2 ++
          (check_flatpak_updates env (check_apt_updates env u).2.1).2.2 ++
          (check_autoremove env
            (check_flatpak_updates env
              (check_apt_updates env u).2.1).2.1).2.2)) := by
  have hd3 : (afterChecks env u).dry_run = true := by
    simp [afterChecks, check_autoremove_dry_run, check_flatpak_updates_state,
      check_apt_updates_dry_run, hd]
  refine ⟨update_apt_packages_dry env u hd, update_flatpak_packages_dry env u hd,
    clean_orphaned_packages_dry env u hd, clean_cache_dry env u hd, ?_⟩
  intro h1 h2 h3
  rw [full_run_characterization env u h1 h2 h3]
  simp [update_apt_packages_dry env _ hd3, update_flatpak_packages_dry env _ hd3,
    clean_orphaned_packages_dry env _ hd3, clean_cache_dry env _ hd3]

/-- Environment for the C8 witness: the checks find one upgradable package
and one removable package; every command succeeds. -/
def envDry : Env := fun cmd =>
  if cmd = ["apt", "list", "--upgradable"] then
    CmdOutcome.ran 0 "Listing...\nvim/stable 1.0 2.0 amd64" ""
  else if cmd = ["apt", "autoremove", "--dry-run"] then
    CmdOutcome.ran 0 "The following packages will be REMOVED:\n   oldlib" ""
  else CmdOutcome.ran 0 "" ""

/-- Witness for C8: a dry run that discovered candidates still succeeds and
its trace holds exactly the five check-phase commands. -/
theorem dry_run_no_apply_commands_witness :
    update_apt_packages envDry (initUpdater true false) =
      (true, initUpdater true false, []) ∧
    full_update_and_clean envDry (initUpdater true false) =
      (true, afterChecks envDry (initUpdater true false),
       [["sudo", "apt", "update"], ["apt", "list", "--upgradable"],
        ["which", "flatpak"], ["flatpak", "remote-ls", "--updates"],
        ["apt", "autoremove", "--dry-run"]]) := by
  have h := dry_run_no_apply_commands envDry (initUpdater true false) rfl
  exact ⟨h.1, (h.2.2.2.2 (by decide) (by decide) (by decide)).trans (by decide)⟩

/-- Environment for the C2 counterexample: every command succeeds except the
Flatpak apply command, which exits 1. -/
def envFlatApplyFails : Env := fun cmd =>
  if cmd = ["flatpak", "update", "-y"] then CmdOutcome.ran 1 "" "error"
  else CmdOutcome.ran 0 "" ""

/-- Counterexample to C2 as stated: in a full (non-check-only, non-dry-run)
run whose Flatpak apply phase fails — the phase really runs: its command is in
the trace — the process still exits 0, because `full_update_and_clean`
discards the result of `update_flatpak_packages`. -/
theorem exit_status_counterexample :
    (update_flatpak_packages envFlatApplyFails
       (afterChecks envFlatApplyFails (initUpdater false false))).1 = false ∧
    ["flatpak", "update", "-y"] ∈
      (mainRun ⟨false, false, false⟩ envFlatApplyFails).2 ∧
    (mainRun ⟨false, false, false⟩ envFlatApplyFails).1 = 0 := by decide

/-- **C2** (amended): the exit status is 0 in check-only mode; in a full run
whose check phases succeed the exit status is decided exactly by the
upgrade-apply, removal-apply and cache-clean results (a Flatpak apply failure
does not affect it); and a fully successful run exits 0. -/
theorem exit_status_amended (a : Args) (env : Env) :
    (a.check_only = true → (mainRun a env).1 = 0) ∧
    (a.check_only = false →
     (check_apt_updates env (initUpdater a.dry_run a.verbose)).1 = true →
     (check_flatpak_updates env
       (check_apt_updates env (initUpdater a.dry_run a.verbose)).2.1).1 = true →
     (check_autoremove env (check_flatpak_updates env
       (check_apt_updates env
         (initUpdater a.dry_run a.verbose)).2.1).2.1).1 = true →
     (mainRun a env).1 =
       (if (update_apt_packages env
              (afterChecks env (initUpdater a.dry_run a.verbose))).1 &&
           (clean_orphaned_packages env
              (afterChecks env (initUpdater a.dry_run a.verbose))).1 &&
           (clean_cache env
              (afterChecks env (initUpdater a.dry_run a.verbose))).1
        then 0 else 1)) ∧
    (a.check_only = false →
     (full_update_and_clean env (initUpdater a.dry_run a.verbose)).1 = true →
     (mainRun a env).1 = 0) := by
  refine ⟨?_, ?_, ?_⟩
  · intro h
    simp [mainRun, h]
  · intro hco h1 h2 h3
    simp [mainRun, hco, full_run_characterization env _ h1 h2 h3]
  · intro hco hs
    simp [mainRun, hco, hs]

/-- All-success environment. -/
def envAllOk : Env := fun _ => CmdOutcome.ran 0 "" ""

/-- Witness for the amended C2: check-only mode exits 0, and a full run whose
checks and counted apply phases succeed exits 0. -/
theorem exit_status_amended_witness :
    (mainRun ⟨false, false, true⟩ envAllOk).1 = 0 ∧
    (mainRun ⟨false, false, false⟩ envAllOk).1 = 0 := by
  refine ⟨(exit_status_amended ⟨false, false, true⟩ envAllOk).1 rfl, ?_⟩
  have h := (exit_status_amended ⟨false, false, false⟩ envAllOk).2.1 rfl
    (by decide) (by decide) (by decide)
  rw [h]
  decide

/-- Environment for C3: the `which flatpak` probe fails, and the Flatpak
apply command cannot be launched at all. -/
def envNoFlatpak : Env := fun cmd =>
  if cmd = ["which", "flatpak"] then CmdOutcome.ran 1 "" ""
  else if cmd = ["flatpak", "update", "-y"] then
    CmdOutcome.raised "FileNotFoundError: flatpak"
  else CmdOutcome.ran 0 "" ""

/-- Counterexample to C3 as stated: with the probe reporting the tool absent,
the apply phase still invokes `flatpak update -y` on the subsystem and
reports failure, instead of reporting success without further commands. -/
theorem flatpak_absent_counterexample :
    (run_command envNoFlatpak ["which", "flatpak"]).1 = false ∧
    update_flatpak_packages envNoFlatpak (initUpdater false false) =
      (false, initUpdater false false, [["flatpak", "update", "-y"]]) := by
  decide

/-- **C3** (amended): when the probe reports the tool absent the check phase
reports success without invoking any further command on the subsystem, but
the apply phase does not consult the probe: outside dry-run mode it always
invokes the Flatpak update command and returns that command's result (which
`full_update_and_clean` then ignores). -/
theorem flatpak_absent_amended (env : Env) (u : Updater)
    (hprobe : (run_command env ["which", "flatpak"]).1 = false) :
    check_flatpak_updates env u = (true, u, [["which", "flatpak"]]) ∧
    (u.dry_run = false →
      update_flatpak_packages env u =
        ((run_command env ["flatpak", "update", "-y"]).1, u,
         [["flatpak", "update", "-y"]])) := by
  constructor
  · simp [check_flatpak_updates, hprobe]
  · intro hd
    simp [update_flatpak_packages, hd]

/-- Witness for the amended C3. -/
theorem flatpak_absent_amended_witness :
    check_flatpak_updates envNoFlatpak (initUpdater false false) =
      (true, initUpdater false false, [["which", "flatpak"]]) ∧
    update_flatpak_packages envNoFlatpak (initUpdater false false) =
      (false, initUpdater false false, [["flatpak", "update", "-y"]]) := by
  have h := flatpak_absent_amended envNoFlatpak (initUpdater false false)
    (by decide)
  exact ⟨h.1, (h.2 rfl).trans (by decide)⟩

/-! ## Removal-parser lemmas -/

/-- While the header has not been seen, the scanning loop collects nothing. -/
theorem autoremoveLines_no_header (lines : List String)
    (h : ∀ line ∈ lines, strContains line removalHeader = false) :
    ∀ packages, autoremoveLines lines false packages = packages := by
  induction lines with
  | nil => intro packages; rfl
  | cons line rest ih =>
    intro packages
    have hl := h line (by simp)
    simp only [autoremoveLines, hl, Bool.false_eq_true, if_false,
      Bool.false_and, Bool.and_false]
    exact ih (fun x hx => h x (by simp [hx])) packages

/-- **C6**: a removal-simulation output containing no header line yields an
empty removable-package list, and the check phase reports success with that
empty list (not an error). -/
theorem no_header_empty_result (out : String) (env : Env) (u : Updater)
    (e : String)
    (h : ∀ line ∈ pySplitNl (pythonStrip out),
      strContains line removalHeader = false)
    (henv : env ["apt", "autoremove", "--dry-run"] = CmdOutcome.ran 0 out e) :
    parseAutoremove out = [] ∧
    check_autoremove env u =
      (true, { u with removable_packages := [] },
       [["apt", "autoremove", "--dry-run"]]) := by
  have hempty : parseAutoremove out = [] := by
    unfold parseAutoremove
    exact autoremoveLines_no_header _ h []
  refine ⟨hempty, ?_⟩
  simp [check_autoremove, run_command, henv, hempty]

/-- Witness for C6. -/
theorem no_header_empty_result_witness :
    parseAutoremove "Reading package lists... Done\n0 to remove" = [] ∧
    check_autoremove
      (fun _ => CmdOutcome.ran 0 "Reading package lists... Done\n0 to remove" "")
      (initUpdater false false) =
      (true, initUpdater false false, [["apt", "autoremove", "--dry-run"]]) := by
  have h := no_header_empty_result "Reading package lists... Done\n0 to remove"
    (fun _ => CmdOutcome.ran 0 "Reading package lists... Done\n0 to remove" "")
    (initUpdater false false) "" (by decide) rfl
  exact ⟨h.1, h.2.trans (by decide)⟩

/-- **C5**: a line without `/`, a line starting with the literal
`Listing...` introduction, or a line failing the regex produces no candidate,
and the check phase nevertheless returns success whenever its two commands
succeed, silently skipping such lines. -/
theorem malformed_line_skipped (line : String) (env : Env) (u : Updater)
    (h : strContains line "/" = false ∨ pyStartsWith line "Listing..." = true ∨
      matchUpgradeLine line = none) :
    parseUpgradableLine line = none ∧
    ((run_command env ["sudo", "apt", "update"]).1 = true →
     (run_command env ["apt", "list", "--upgradable"]).1 = true →
     (check_apt_updates env u).1 = true) := by
  constructor
  · unfold parseUpgradableLine
    rcases h with h | h | h
    · simp [h]
    · simp [h]
    · split
      · exact h
      · rfl
  · intro h1 h2
    simp [check_apt_updates, h1, h2]

/-- Witness for C5: the three kinds of skipped lines, inside an environment
whose commands succeed. -/
theorem malformed_line_skipped_witness :
    parseUpgradableLine "Listing... Done" = none ∧
    parseUpgradableLine "All packages are up to date." = none ∧
    parseUpgradableLine "badline/noversions" = none ∧
    (check_apt_updates envAllOk (initUpdater false false)).1 = true := by
  refine ⟨?_, ?_, ?_, ?_⟩
  · exact (malformed_line_skipped "Listing... Done" envAllOk
      (initUpdater false false) (Or.inr (Or.inl (by decide)))).1
  · exact (malformed_line_skipped "All packages are up to date." envAllOk
      (initUpdater false false) (Or.inl (by decide))).1
  · exact (malformed_line_skipped "badline/noversions" envAllOk
      (initUpdater false false) (Or.inr (Or.inr (by decide)))).1
  · exact (malformed_line_skipped "x" envAllOk (initUpdater false false)
      (Or.inl (by decide))).2 (by decide) (by decide)

/-! ## String-level helper lemmas for the parsers -/

theorem toList_asString (l : List Char) : l.asString.toList = l := rfl

theorem string_eq_of_toList {s t : String} (h : s.toList = t.toList) : s = t := by
  cases s with
  | mk d => cases t with
    | mk e => exact congrArg String.mk h

theorem toList_one_space : (" " : String).toList = [' '] := rfl

theorem toList_three_spaces : ("   " : String).toList = [' ', ' ', ' '] := rfl

theorem dropWhile_all_neg {α : Type} {p : α → Bool} (l : List α)
    (h : ∀ a ∈ l, p a = false) : l.dropWhile p = l := by
  cases l with
  | nil => rfl
  | cons a t => exact dropWhile_cons_neg a t (h a (by simp))

theorem exists_cons_of_ne_nil {α : Type} {l : List α} (h : l ≠ []) :
    ∃ x xs, l = x :: xs := by
  cases l with
  | nil => exact absurd rfl h
  | cons x xs => exact ⟨x, xs, rfl⟩

theorem pyTruthy_of_toList_ne (s : String) (h : s.toList ≠ []) :
    pyTruthy s = true := by
  obtain ⟨x, xs, he⟩ := exists_cons_of_ne_nil h
  unfold pyTruthy
  rw [he]
  rfl

theorem pyStartsWith_of_toList (s pre : String) (l : List Char)
    (h : s.toList = pre.toList ++ l) : pyStartsWith s pre = true := by
  unfold pyStartsWith
  rw [h]
  exact isPrefixOf_append_self _ _

theorem pythonStrip_pad_core (pad : String) (core : List Char)
    (hpad : ∀ ch ∈ pad.toList, isWs ch = true)
    (h1 : core.dropWhile isWs = core)
    (h2 : core.reverse.dropWhile isWs = core.reverse) :
    pythonStrip (pad ++ core.asString) = core.asString := by
  unfold pythonStrip
  rw [toList_append, toList_asString, dropWhile_append_all _ _ hpad, h1, h2,
    List.reverse_reverse]

theorem pythonStrip_pad_clean (pad s : String)
    (hpad : ∀ ch ∈ pad.toList, isWs ch = true)
    (hsw : ∀ ch ∈ s.toList, isWs ch = false) :
    pythonStrip (pad ++ s) = s := by
  have h2 : s.toList.reverse.dropWhile isWs = s.toList.reverse :=
    dropWhile_all_neg _ (fun a hh => hsw a (List.mem_reverse.mp hh))
  exact pythonStrip_pad_core pad s.toList hpad (dropWhile_all_neg _ hsw) h2

theorem pythonStrip_pad_two (pad b c : String)
    (hpad : ∀ ch ∈ pad.toList, isWs ch = true)
    (hb : b.toList ≠ []) (hc : c.toList ≠ [])
    (hbw : ∀ ch ∈ b.toList, isWs ch = false)
    (hcw : ∀ ch ∈ c.toList, isWs ch = false) :
    pythonStrip (pad ++ b ++ " " ++ c) =
      (b.toList ++ ' ' :: c.toList).asString := by
  have heq : (pad ++ b ++ " " ++ c : String) =
      pad ++ (b.toList ++ ' ' :: c.toList).asString := by
    apply string_eq_of_toList
    simp only [toList_append, toList_asString, toList_one_space]
    simp
  rw [heq]
  obtain ⟨b0, bt, hbe⟩ := exists_cons_of_ne_nil hb
  obtain ⟨d, r, hcr⟩ : ∃ x xs, c.toList.reverse = x :: xs :=
    exists_cons_of_ne_nil (fun h => hc (List.reverse_eq_nil_iff.mp h))
  apply pythonStrip_pad_core pad _ hpad
  · rw [hbe]
    exact dropWhile_cons_neg _ _ (hbw b0 (by rw [hbe]; simp))
  · have hrev : (b.toList ++ ' ' :: c.toList).reverse =
        d :: (r ++ ' ' :: b.toList.reverse) := by
      rw [List.reverse_append, List.reverse_cons, hcr]
      simp
    rw [hrev]
    exact dropWhile_cons_neg _ _
      (hcw d (List.mem_reverse.mp (by rw [hcr]; simp)))

theorem firstTok_head_clean (b : String) (rest : List Char)
    (hb : b.toList ≠ [])
    (hbw : ∀ ch ∈ b.toList, isWs ch = false)
    (hrest : rest = [] ∨ ∃ d r, rest = d :: r ∧ isWs d = true) :
    firstTok ((b.toList ++ rest).asString) = b := by
  unfold firstTok
  rw [toList_asString]
  obtain ⟨b0, bt, hbe⟩ := exists_cons_of_ne_nil hb
  have hdrop : (b.toList ++ rest).dropWhile isWs = b.toList ++ rest := by
    rw [hbe]
    exact dropWhile_cons_neg _ _ (hbw b0 (by rw [hbe]; simp))
  rw [hdrop, takeWhile_append_all _ _ (fun ch hch => by simp [hbw ch hch])]
  have htake : rest.takeWhile (fun c => !isWs c) = [] := by
    rcases hrest with h | ⟨d, r, hdr, hd⟩
    · simp [h]
    · rw [hdr]
      exact takeWhile_cons_neg _ _ (by simp [hd])
  rw [htake, List.append_nil]
  exact asString_toList b

theorem firstTok_clean (b : String) (hb : b.toList ≠ [])
    (hbw : ∀ ch ∈ b.toList, isWs ch = false) : firstTok b = b := by
  have h := firstTok_head_clean b [] hb hbw (Or.inl rfl)
  simpa [asString_toList] using h

/-- One scan step on a line containing the header: mark the list as started. -/
theorem autoremoveLines_header_step (line : String) (rest : List String)
    (flag : Bool) (acc : List String)
    (h : strContains line removalHeader = true) :
    autoremoveLines (line :: rest) flag acc = autoremoveLines rest true acc := by
  simp [autoremoveLines, h]

/-- One scan step on an indented non-empty line whose first token is new:
collect that token. -/
theorem autoremoveLines_collect_step (line : String) (rest : List String)
    (acc : List String)
    (hh : strContains line removalHeader = false)
    (hne : pyTruthy (pythonStrip line) = true)
    (hind : pyStartsWith line "   " = true)
    (hname : pyTruthy (firstTok (pythonStrip line)) = true)
    (hmem : acc.contains (firstTok (pythonStrip line)) = false) :
    autoremoveLines (line :: rest) true acc =
      autoremoveLines rest true (acc ++ [firstTok (pythonStrip line)]) := by
  have hmem' : firstTok (pythonStrip line) ∉ acc := by simpa using hmem
  simp [autoremoveLines, hh, hne, hind, hname, hmem']

/-- The removal-simulation report of C1's end-to-end scenario: 3 names across
two indented lines, the second line holding two names. -/
def removalReport3 : String :=
  "The following packages will be REMOVED:\n   alpha\n   beta gamma\n0 upgraded, 0 newly installed, 2 to remove and 0 not upgraded."

/-- Counterexample to C1 as stated: `check_autoremove`'s parser keeps only
the first whitespace-separated name of each indented line
(`line.strip().split()[0]`), so a report listing 3 names across two indented
lines yields `["alpha", "beta"]` — 2 removable packages, not 3 (`gamma` is
dropped). -/
theorem autoremove_multi_name_counterexample :
    parseAutoremove removalReport3 = ["alpha", "beta"] ∧
    (parseAutoremove removalReport3).length ≠ 3 := by decide

/-- **C1** (amended): after the header, the removal parser collects only the
first whitespace-separated name of each indented continuation line
(deduplicated): for a report whose header is followed by an indented line
naming `a` and an indented line naming `b` and `c` — 3 names over two lines,
one line with 2 names — it reports exactly the 2 names `a` and `b`. -/
theorem autoremove_first_token_only (a b c : String)
    (ha : a.toList ≠ []) (hb : b.toList ≠ []) (hc : c.toList ≠ [])
    (haw : ∀ ch ∈ a.toList, isWs ch = false)
    (hbw : ∀ ch ∈ b.toList, isWs ch = false)
    (hcw : ∀ ch ∈ c.toList, isWs ch = false)
    (hab : a ≠ b)
    (hna : strContains ("   " ++ a) removalHeader = false)
    (hnb : strContains ("   " ++ b ++ " " ++ c) removalHeader = false) :
    autoremoveLines [removalHeader, "   " ++ a, "   " ++ b ++ " " ++ c]
      false [] = [a, b] := by
  have hpad : ∀ ch ∈ ("   " : String).toList, isWs ch = true := by decide
  have hsa : pythonStrip ("   " ++ a) = a := pythonStrip_pad_clean _ _ hpad haw
  have hsbc : pythonStrip ("   " ++ b ++ " " ++ c) =
      (b.toList ++ ' ' :: c.toList).asString :=
    pythonStrip_pad_two _ _ _ hpad hb hc hbw hcw
  have hfa : firstTok (pythonStrip ("   " ++ a)) = a := by
    rw [hsa]
    exact firstTok_clean a ha haw
  have hfbc : firstTok (pythonStrip ("   " ++ b ++ " " ++ c)) = b := by
    rw [hsbc]
    exact firstTok_head_clean b (' ' :: c.toList) hb hbw
      (Or.inr ⟨' ', c.toList, rfl, by decide⟩)
  rw [autoremoveLines_header_step _ _ _ _ (by decide)]
  rw [autoremoveLines_collect_step ("   " ++ a) ["   " ++ b ++ " " ++ c] []
    hna
    (by rw [hsa]; exact pyTruthy_of_toList_ne a ha)
    (pyStartsWith_of_toList _ _ a.toList (toList_append _ _))
    (by rw [hfa]; exact pyTruthy_of_toList_ne a ha)
    rfl]
  rw [hfa, List.nil_append]
  rw [autoremoveLines_collect_step _ _ _ hnb
    (by
      rw [hsbc]
      apply pyTruthy_of_toList_ne
      rw [toList_asString]
      obtain ⟨b0, bt, hbe⟩ := exists_cons_of_ne_nil hb
      simp [hbe])
    (pyStartsWith_of_toList _ _ (b.toList ++ ' ' :: c.toList)
      (by simp [toList_append, toList_one_space]))
    (by rw [hfbc]; exact pyTruthy_of_toList_ne b hb)
    (by
      rw [hfbc]
      have hba : ¬ b = a := fun h => hab h.symm
      simpa using hba)]
  rw [hfbc]
  simp [autoremoveLines]

/-- Witness for the amended C1: the scenario's concrete report lines. -/
theorem autoremove_first_token_only_witness :
    autoremoveLines
      [removalHeader, "   " ++ "alpha", "   " ++ "beta" ++ " " ++ "gamma"]
      false [] = ["alpha", "beta"] :=
  autoremove_first_token_only "alpha" "beta" "gamma" (by decide) (by decide)
    (by decide) (by decide) (by decide) (by decide) (by decide) (by decide)
    (by decide)

theorem toList_slash : ("/" : String).toList = ['/'] := rfl

/-- **C4**: every well-formed upgrade-listing line
`pkg/src cur avail extra...` — `pkg` non-empty without `/`, `src`, `cur` and
`avail` non-empty without whitespace, `extra` empty or starting with a
whitespace character (and, as for every line split out of the command output,
containing no interior newline) — is parsed to the candidate with name `pkg`
(the text before the first `/`), current version `cur` and available version
`avail`; and the parser emits candidates in input line order: the candidate
of the head line precedes those of the remaining lines. -/
theorem upgrade_line_parsed (pkg src cur avail extra : String)
    (hpkg : pkg.toList ≠ [])
    (hpkgc : ∀ ch ∈ pkg.toList, ch ≠ '/')
    (hsrc : src.toList ≠ []) (hsrcc : ∀ ch ∈ src.toList, isWs ch = false)
    (hcur : cur.toList ≠ []) (hcurc : ∀ ch ∈ cur.toList, isWs ch = false)
    (hav : avail.toList ≠ []) (havc : ∀ ch ∈ avail.toList, isWs ch = false)
    (hex : extra.toList = [] ∨ ∃ d r, extra.toList = d :: r ∧ isWs d = true)
    (hexnl : (dropTrailingNewline extra.toList).contains '\n' = false)
    (hlist : pyStartsWith (pkg ++ "/" ++ src ++ " " ++ cur ++ " " ++ avail ++ extra)
      "Listing..." = false) :
    parseUpgradableLine (pkg ++ "/" ++ src ++ " " ++ cur ++ " " ++ avail ++ extra) =
      some { name := pkg, current := cur, available := avail } ∧
    ∀ line lines, parseLines (line :: lines) =
      (parseUpgradableLine line).toList ++ parseLines lines := by
  constructor
  · have hL : (pkg ++ "/" ++ src ++ " " ++ cur ++ " " ++ avail ++ extra).toList =
        pkg.toList ++ '/' :: (src.toList ++ ' ' :: (cur.toList ++ ' ' ::
          (avail.toList ++ extra.toList))) := by
      simp [toList_append, toList_one_space, toList_slash]
    obtain ⟨p0, pt, hpe⟩ := exists_cons_of_ne_nil hpkg
    obtain ⟨s0, st, hse⟩ := exists_cons_of_ne_nil hsrc
    obtain ⟨c0, ct, hce⟩ := exists_cons_of_ne_nil hcur
    obtain ⟨a0, at', hae⟩ := exists_cons_of_ne_nil hav
    have htr : pyTruthy
        (pkg ++ "/" ++ src ++ " " ++ cur ++ " " ++ avail ++ extra) = true := by
      apply pyTruthy_of_toList_ne
      rw [hL, hpe]
      simp
    have hsl : strContains
        (pkg ++ "/" ++ src ++ " " ++ cur ++ " " ++ avail ++ extra) "/" = true := by
      unfold strContains
      rw [hL]
      exact listHasSub_append_self "/".toList pkg.toList _
    unfold parseUpgradableLine
    rw [htr, hsl, hlist]
    simp only [Bool.not_false, Bool.and_self, Bool.and_true, Bool.true_and,
      if_true]
    have hpkgE : pkg.toList.isEmpty = false := by rw [hpe]; rfl
    have hsrcE : src.toList.isEmpty = false := by rw [hse]; rfl
    have hcurE : cur.toList.isEmpty = false := by rw [hce]; rfl
    have havE : avail.toList.isEmpty = false := by rw [hae]; rfl
    have h1 : (pkg.toList ++ '/' :: (src.toList ++ ' ' :: (cur.toList ++ ' ' ::
        (avail.toList ++ extra.toList)))).takeWhile (fun c => c ≠ '/') =
        pkg.toList := by
      rw [takeWhile_append_all _ _ (fun x hx => decide_eq_true (hpkgc x hx)),
        takeWhile_cons_neg _ _ (by decide), List.append_nil]
    have h2 : (pkg.toList ++ '/' :: (src.toList ++ ' ' :: (cur.toList ++ ' ' ::
        (avail.toList ++ extra.toList)))).dropWhile (fun c => c ≠ '/') =
        '/' :: (src.toList ++ ' ' :: (cur.toList ++ ' ' ::
          (avail.toList ++ extra.toList))) := by
      rw [dropWhile_append_all _ _ (fun x hx => decide_eq_true (hpkgc x hx))]
      exact dropWhile_cons_neg _ _ (by decide)
    have hsrc_t : (src.toList ++ ' ' :: (cur.toList ++ ' ' ::
        (avail.toList ++ extra.toList))).takeWhile (fun c => !isWs c) =
        src.toList := by
      rw [takeWhile_append_all _ _ (fun x hx => by rw [hsrcc x hx]; rfl),
        takeWhile_cons_neg _ _ (by decide), List.append_nil]
    have hsrc_d : (src.toList ++ ' ' :: (cur.toList ++ ' ' ::
        (avail.toList ++ extra.toList))).dropWhile (fun c => !isWs c) =
        ' ' :: (cur.toList ++ ' ' :: (avail.toList ++ extra.toList)) := by
      rw [dropWhile_append_all _ _ (fun x hx => by rw [hsrcc x hx]; rfl)]
      exact dropWhile_cons_neg _ _ (by decide)
    have hws1 : ((' ' :: (cur.toList ++ ' ' :: (avail.toList ++
        extra.toList))).takeWhile isWs).isEmpty = false := by
      rw [List.takeWhile_cons]
      simp only [show isWs ' ' = true from by decide, if_true]
      rfl
    have hr3 : (' ' :: (cur.toList ++ ' ' :: (avail.toList ++
        extra.toList))).dropWhile isWs =
        cur.toList ++ ' ' :: (avail.toList ++ extra.toList) := by
      have hc0 : isWs c0 = false := hcurc c0 (by rw [hce]; simp)
      rw [List.dropWhile_cons]
      simp only [show isWs ' ' = true from by decide, if_true]
      rw [hce]
      exact dropWhile_cons_neg _ _ hc0
    have hcur_t : (cur.toList ++ ' ' :: (avail.toList ++
        extra.toList)).takeWhile (fun c => !isWs c) = cur.toList := by
      rw [takeWhile_append_all _ _ (fun x hx => by rw [hcurc x hx]; rfl),
        takeWhile_cons_neg _ _ (by decide), List.append_nil]
    have hcur_d : (cur.toList ++ ' ' :: (avail.toList ++
        extra.toList)).dropWhile (fun c => !isWs c) =
        ' ' :: (avail.toList ++ extra.toList) := by
      rw [dropWhile_append_all _ _ (fun x hx => by rw [hcurc x hx]; rfl)]
      exact dropWhile_cons_neg _ _ (by decide)
    have hws2 : ((' ' :: (avail.toList ++ extra.toList)).takeWhile
        isWs).isEmpty = false := by
      rw [List.takeWhile_cons]
      simp only [show isWs ' ' = true from by decide, if_true]
      rfl
    have hr5 : (' ' :: (avail.toList ++ extra.toList)).dropWhile isWs =
        avail.toList ++ extra.toList := by
      have ha0 : isWs a0 = false := havc a0 (by rw [hae]; simp)
      rw [List.dropWhile_cons]
      simp only [show isWs ' ' = true from by decide, if_true]
      rw [hae]
      exact dropWhile_cons_neg _ _ ha0
    have hav_t : (avail.toList ++ extra.toList).takeWhile
        (fun c => !isWs c) = avail.toList := by
      rw [takeWhile_append_all _ _ (fun x hx => by rw [havc x hx]; rfl)]
      rcases hex with h | ⟨d, r, hdr, hd⟩
      · rw [h]
        simp
      · rw [hdr, takeWhile_cons_neg _ _ (by simp [hd]), List.append_nil]
    have hav_d : (avail.toList ++ extra.toList).dropWhile
        (fun c => !isWs c) = extra.toList := by
      rw [dropWhile_append_all _ _ (fun x hx => by rw [havc x hx]; rfl)]
      rcases hex with h | ⟨d, r, hdr, hd⟩
      · rw [h]
        rfl
      · rw [hdr]
        exact dropWhile_cons_neg _ _ (by simp [hd])
    simp only [matchUpgradeLine]
    rw [hL, h1, h2]
    simp only [List.isEmpty_cons, Bool.false_eq_true, if_false, List.tail_cons,
      hpkgE]
    rw [hsrc_t, hsrc_d]
    simp only [hsrcE, Bool.false_eq_true, if_false]
    rw [hws1, hr3, hcur_t, hcur_d]
    simp only [hcurE, Bool.false_eq_true, if_false]
    rw [hws2, hr5, hav_t, hav_d]
    simp only [havE, hexnl, Bool.false_eq_true, if_false]
    rfl
  · intro line lines
    unfold parseLines
    cases h : parseUpgradableLine line with
    | none => simp [h]
    | some cand => simp [h]

/-- Witness for C4: a concrete well-formed line is parsed as claimed, and a
two-line listing is parsed in line order. -/
theorem upgrade_line_parsed_witness :
    parseUpgradableLine "vim/stable 1.0 2.0 amd64" =
      some { name := "vim", current := "1.0", available := "2.0" } ∧
    parseLines ["vim/stable 1.0 2.0 amd64", "curl/stable 7.0 8.0"] =
      [{ name := "vim", current := "1.0", available := "2.0" },
       { name := "curl", current := "7.0", available := "8.0" }] := by
  have h := upgrade_line_parsed "vim" "stable" "1.0" "2.0" " amd64"
    (by decide) (by decide) (by decide) (by decide) (by decide) (by decide)
    (by decide) (by decide)
    (Or.inr ⟨' ', "amd64".toList, by decide, by decide⟩)
    (by decide) (by decide)
  have hs : ("vim" ++ "/" ++ "stable" ++ " " ++ "1.0" ++ " " ++ "2.0" ++
      " amd64" : String) = "vim/stable 1.0 2.0 amd64" := by decide
  constructor
  · rw [← hs]
    exact h.1
  · exact (h.2 "vim/stable 1.0 2.0 amd64" ["curl/stable 7.0 8.0"]).trans
      (by decide)
